import Mathlib

/-!
Shallow embedding of the delvejs client (a Node.js binding to the Delve
debugger JSON-RPC API) and proofs about its specification.

Sources embedded here:
  * src/unnamed/part_004 and src/lib/types/index.js — `types.Breakpoint.decodeBreakpoint`,
    `types.Scope.makeScope`, `types.DebuggerCommands`;
  * src/unnamed/part_003 (lib/delve.js) — the `Delve` client methods;
  * src/lib/errors.js — the error classes exported by the errors module.

JavaScript values are modelled by `JsVal`; a thrown JS value is itself a
`JsVal` (error objects carry their prototype-chain class names, which models
`instanceof` checks used by bluebird filtered catches).  A settled promise
chain is an `Except JsVal`; the RPC client is a function from method name and
argument to a settled result, and every issued RPC request is recorded in a
call log so that theorems can speak about which requests a method issues.
-/

/-- A JavaScript value: undefined, null, booleans, numbers (all payloads in
this codebase use integral numbers), strings, arrays, plain objects, and
error objects.  An error object carries its prototype chain (class names,
most specific first) plus its own properties. -/
inductive JsVal where
  | undefined  : JsVal
  | null   : JsVal
  | bool   : Bool → JsVal
  | num    : Int → JsVal
  | str    : String → JsVal
  | arr    : List JsVal → JsVal
  | obj    : List (String × JsVal) → JsVal
  | errObj : List String → List (String × JsVal) → JsVal

/-- First binding of a key in a JS object property list. -/
def lookupProp : List (String × JsVal) → String → Option JsVal
  | [], _ => none
  | (k, v) :: rest, key => if k = key then some v else lookupProp rest key

/-- Property read on a value that is known not to be null or undefined:
a missing property reads as `undefined` (this is how JavaScript behaves;
no getter ever throws in this codebase). -/
def JsVal.getProp : JsVal → String → JsVal
  | .obj props, key => (lookupProp props key).getD .undefined
  | .errObj _ props, key => (lookupProp props key).getD .undefined
  | _, _ => .undefined

/-- JavaScript truthiness (NaN is not modelled; no payload here produces it). -/
def JsVal.truthy : JsVal → Bool
  | .undefined => false
  | .null => false
  | .bool b => b
  | .num n => n != 0
  | .str s => s != ""
  | .arr _ => true
  | .obj _ => true
  | .errObj _ _ => true

/-- The JavaScript `a || b` operator. -/
def jsOr (a b : JsVal) : JsVal := if a.truthy then a else b

/-- Whether property access on the value succeeds, i.e. the value is neither
`undefined` nor `null`. -/
def JsVal.objLike : JsVal → Bool
  | .undefined => false
  | .null => false
  | _ => true

/-- The `instanceof` check used by bluebird filtered catch handlers:
membership of the class name in the prototype chain of an error object. -/
def JsVal.isInstanceOf (v : JsVal) (cls : String) : Bool :=
  match v with
  | .errObj chain _ => chain.contains cls
  | _ => false

/-- String conversion used by template literals; for error objects this is
the standard `name: message` rendering. -/
def strPropOr (props : List (String × JsVal)) (key dflt : String) : String :=
  match lookupProp props key with
  | some (.str s) => s
  | _ => dflt

mutual
/-- JavaScript string coercion as used in template literals such as
`Invalid location pattern: ${locationArg}`. -/
def jsToString : JsVal → String
  | .undefined => "undefined"
  | .null => "null"
  | .bool b => if b then "true" else "false"
  | .num n => toString n
  | .str s => s
  | .arr xs => String.intercalate "," (jsToStringList xs)
  | .obj _ => "[object Object]"
  | .errObj _ props => strPropOr props "name" "Error" ++ ": " ++ strPropOr props "message" ""

def jsToStringList : List JsVal → List String
  | [] => []
  | x :: xs => jsToString x :: jsToStringList xs
end

/-- A built-in TypeError. -/
def mkTypeError (msg : String) : JsVal :=
  .errObj ["TypeError", "Error"] [("name", .str "TypeError"), ("message", .str msg)]

/-- A built-in ReferenceError, as thrown when an unbound identifier is read
in strict mode. -/
def mkReferenceError (ident : String) : JsVal :=
  .errObj ["ReferenceError", "Error"]
    [("name", .str "ReferenceError"), ("message", .str (ident ++ " is not defined"))]

/-- A server fault as rejected by the json-rpc2 client: an instance of
`RPCError.ServerError` wrapping the fault payload reported by Delve. -/
def mkRpcServerError (fault : JsVal) : JsVal :=
  .errObj ["ServerError", "RpcError", "Error"]
    [("name", .str "ServerError"), ("fault", fault)]

/-- Prefix applied to every custom error name by `BaseError.setName`
(src/lib/errors.js line 65: the `DelveErr` constant). -/
def delveErrNamePrefix : String := "DelveError"

/-- The `DelveServerError` class of src/lib/errors.js lines 106 to 113:
message from the template literal, the original fault kept in `this.error`,
and the name set through `setName`. -/
def mkDelveServerError (err : JsVal) : JsVal :=
  .errObj ["DelveServerError", "BaseError", "Error"]
    [("message", .str ("Delve reported error: " ++ jsToString err)),
     ("error", err),
     ("name", .str (delveErrNamePrefix ++ "DelveServerError"))]

/-- The `MalformedLocationError` class of src/lib/errors.js lines 115 to 122.
Note that the constructor interpolates `locationArg` into the message and
stores the underlying fault in `this.error`; it does not store `locationArg`
itself as a property. -/
def mkMalformedLocationError (locationArg : JsVal) (err : JsVal) : JsVal :=
  .errObj ["MalformedLocationError", "BaseError", "Error"]
    [("message", .str ("Invalid location pattern: " ++ jsToString locationArg)),
     ("error", err),
     ("name", .str (delveErrNamePrefix ++ "MalformedLocationError"))]

/-- The `MalformedBreakpointError` class of src/lib/errors.js lines 124 to 133. -/
def mkMalformedBreakpointError (ogErr : JsVal) : JsVal :=
  .errObj ["MalformedBreakpointError", "BaseError", "Error"]
    [("message", .str ("Error creating breakpoint: " ++ jsToString ogErr)),
     ("parseError", ogErr),
     ("name", .str (delveErrNamePrefix ++ "MalformedBreakpointError"))]

/-- The classes exported by the errors module (src/lib/errors.js): these are
exactly the names assigned onto `module.exports`.  In particular there is no
`DebuggerExited` export. -/
def errorModuleExports : List String :=
  ["BaseError", "DelveConnError", "DelveServerError",
   "MalformedLocationError", "MalformedBreakpointError"]

/-- Evaluation of `new DelveError[cls](arg)` for the single-argument error
classes: if `cls` is not exported by the errors module the property read
yields `undefined` and `new` throws a TypeError. -/
def newDelveErrorClass (cls : String) (arg : JsVal) : Except JsVal JsVal :=
  if cls = "DelveServerError" then .ok (mkDelveServerError arg)
  else if cls = "MalformedBreakpointError" then .ok (mkMalformedBreakpointError arg)
  else .error (mkTypeError ("DelveError." ++ cls ++ " is not a constructor"))

/-- One RPC request as handed to `rpcClient.callAsync`: the full method name
(namespace included) and the argument value. -/
structure RpcCall where
  method : String
  args : JsVal

/-- The log of RPC requests issued so far, in order of issue. -/
abbrev CallLog := List RpcCall

/-- The remote Delve server, as the client observes it: a settled response
(or a rejection value) for each request.  Theorems about a method of the
client quantify over this function to model arbitrary mock servers. -/
abbrev RpcServer := String → JsVal → Except JsVal JsVal

/-- A client computation: a settled promise chain that issues RPC requests.
It transforms the call log and ends either fulfilled with a value or
rejected with a thrown JS value.  Requests already issued stay in the log
even when the computation rejects. -/
abbrev JsM (α : Type) : Type := CallLog → Except JsVal α × CallLog

/-- A fulfilled computation. -/
def JsM.pure (a : α) : JsM α := fun log => (.ok a, log)

/-- A computation rejected with the thrown value `e`. -/
def JsM.throw (e : JsVal) : JsM α := fun log => (.error e, log)

/-- Promise chaining (`.then` with a fulfillment handler): a rejection
propagates past the handler. -/
def JsM.bind (m : JsM α) (f : α → JsM β) : JsM β := fun log =>
  match m log with
  | (.ok a, log2) => f a log2
  | (.error e, log2) => (.error e, log2)

/-- A bluebird filtered catch, `.catch(SomeErrorClass, handler)`: the handler
runs only when the rejection value is an instance of the class; any other
rejection propagates unchanged. -/
def JsM.catchIf (m : JsM α) (cls : String) (handler : JsVal → JsM α) : JsM α :=
  fun log =>
    match m log with
    | (.ok a, log2) => (.ok a, log2)
    | (.error e, log2) =>
      if e.isInstanceOf cls then handler e log2 else (.error e, log2)

/-- An unfiltered catch, `.catch(handler)`: every rejection runs the handler. -/
def JsM.catchAll (m : JsM α) (handler : JsVal → JsM α) : JsM α :=
  fun log =>
    match m log with
    | (.ok a, log2) => (.ok a, log2)
    | (.error e, log2) => handler e log2

/-- The promisified json-rpc2 call, `rpcClient.callAsync(method, args)`:
records the request in the log and settles with the response the server
gives for it. -/
def callAsync (server : RpcServer) (method : String) (args : JsVal) : JsM JsVal :=
  fun log => (server method args, log ++ [⟨method, args⟩])

/-- The fixed server namespace, `this.methodPrefix` in the Delve constructor
(src/unnamed/part_003 line 31). -/
def methodNamespace : String := "RPCServer"

/-- The command-name constants of `types.DebuggerCommands`
(src/unnamed/part_004 lines 11 to 22); the `continue` key is rendered as
`continueCommand` because `continue` is reserved in Lean. -/
def DebuggerCommands.continueCommand : String := "continue"

def DebuggerCommands.step : String := "step"

def DebuggerCommands.stepInstruction : String := "stepInstruction"

def DebuggerCommands.next : String := "next"

def DebuggerCommands.halt : String := "halt"

def DebuggerCommands.switchThread : String := "switchThread"

def DebuggerCommands.switchGoroutine : String := "switchGoroutine"

/-- The `types.Scope.makeScope` constructor (src/unnamed/part_004
lines 68 to 72): an object with `GoroutineID` and `Frame` fields. -/
def Scope.makeScope (goroutineID frame : JsVal) : JsVal :=
  JsVal.obj [("GoroutineID", goroutineID), ("Frame", frame)]

/-- The object produced by the literal inside the `try` block of
`types.Breakpoint.decodeBreakpoint` (src/unnamed/part_004 lines 44 to 60),
for a payload on which property access succeeds. -/
def decodeBreakpointFields (bp : JsVal) : JsVal :=
  JsVal.obj [
    ("id", bp.getProp "id"),
    ("name", bp.getProp "name"),
    ("location", JsVal.obj [
      ("addr", bp.getProp "addr"),
      ("file", bp.getProp "file"),
      ("line", bp.getProp "line"),
      ("functionName", jsOr (bp.getProp "functionName") JsVal.null),
      ("goroutine", bp.getProp "goroutine")]),
    ("condition", bp.getProp "Cond"),
    ("continue", bp.getProp "continue"),
    ("stacktrace", bp.getProp "stacktrace"),
    ("variables", jsOr (bp.getProp "variables") (JsVal.arr [])),
    ("hitCount", jsOr (bp.getProp "hitCount") (JsVal.arr [])),
    ("totalHitCount", jsOr (bp.getProp "totalHitCount") (JsVal.num 0))]

/-- The `types.Breakpoint.decodeBreakpoint` function (src/unnamed/part_004
lines 42 to 66).  The `try` block can only throw on the very first property
access (`bp.id`), which happens exactly when `bp` is `undefined` or `null`;
missing properties of an object read as `undefined` and are copied through
without complaint.  When the `catch` block does run, it evaluates
`new DelveError.MalformedBreakpointError(err)` — but the identifier
`DelveError` is not bound in this module (there is no require of ../errors
in src/unnamed/part_004 nor in src/lib/types/index.js), so the `catch`
itself throws a ReferenceError. -/
def decodeBreakpoint (bp : JsVal) : Except JsVal JsVal :=
  if bp.objLike then .ok (decodeBreakpointFields bp)
  else .error (mkReferenceError "DelveError")

/-- Reading an identifier from a lexical environment: a name that is not
bound throws a ReferenceError (strict mode). -/
def lookupVar (env : List (String × JsVal)) (ident : String) : Except JsVal JsVal :=
  match lookupProp env ident with
  | some v => .ok v
  | none => .error (mkReferenceError ident)

/-- The private call primitive `Delve.prototype._makeCall`
(src/unnamed/part_003 lines 58 to 71):

    let p = this.rpcClient.callAsync(`prefix.method`, args);
    let wrapError = _wrapError || true;
    if (wrapError)
      p.catch(RPCError.ServerError, err => { throw new DelveServerError(err); });
    return p;

Two things in the source are worth noting, and are preserved here exactly:
`_wrapError || true` evaluates to `true` for every value of the flag, and
the promise produced by `p.catch(...)` is neither assigned nor returned —
the function returns the original `p`, so its settled outcome is whatever
`callAsync` produced. -/
def Delve.makeCall (server : RpcServer) (method : String) (args wrapArg : JsVal) :
    JsM JsVal :=
  fun log =>
    let p := callAsync server (methodNamespace ++ "." ++ method) args log
    let wrapError := jsOr wrapArg (JsVal.bool true)
    let _wrapped :=
      if wrapError.truthy then
        JsM.catchIf (fun l => (p.fst, l)) "ServerError"
          (fun err => JsM.throw (mkDelveServerError err)) p.snd
      else p
    p

/-- `Delve.prototype.continueToNextBreakpoint` (src/unnamed/part_003
lines 79 to 88): issues the `continue` debugger command and inspects the
`exited` flag of the resulting state.  When the flag is set the source
evaluates `new DelveError.DebuggerExited(state)` — but `DebuggerExited` is
not among `errorModuleExports`, so the construction throws a TypeError. -/
def Delve.continueToNextBreakpoint (server : RpcServer) : JsM JsVal :=
  JsM.bind
    (Delve.makeCall server "Command"
      (JsVal.obj [("name", JsVal.str DebuggerCommands.continueCommand)]) JsVal.undefined)
    (fun state =>
      if state.objLike then
        if (state.getProp "exited").truthy then
          match newDelveErrorClass "DebuggerExited" state with
          | .ok e => JsM.throw e
          | .error e => JsM.throw e
        else JsM.pure state
      else
        -- `state.exited` itself throws when the state is null or undefined
        JsM.throw (mkTypeError "cannot read properties of a missing state"))

/-- `Delve.prototype.next` (src/unnamed/part_003 lines 95 to 100). -/
def Delve.next (server : RpcServer) : JsM JsVal :=
  Delve.makeCall server "Command"
    (JsVal.obj [("name", JsVal.str DebuggerCommands.next)]) JsVal.undefined

/-- `Delve.prototype.step` (src/unnamed/part_003 lines 107 to 112). -/
def Delve.step (server : RpcServer) : JsM JsVal :=
  Delve.makeCall server "Command"
    (JsVal.obj [("name", JsVal.str DebuggerCommands.step)]) JsVal.undefined

/-- `Delve.prototype.stepInstruction` (src/unnamed/part_003 lines 119 to 124). -/
def Delve.stepInstruction (server : RpcServer) : JsM JsVal :=
  Delve.makeCall server "Command"
    (JsVal.obj [("name", JsVal.str DebuggerCommands.stepInstruction)]) JsVal.undefined

/-- `Delve.prototype.halt` (src/unnamed/part_003 lines 157 to 160). -/
def Delve.halt (server : RpcServer) : JsM JsVal :=
  Delve.makeCall server "Command"
    (JsVal.obj [("name", JsVal.str DebuggerCommands.halt)]) JsVal.undefined

/-- The default scope used when `findLocationsForArgs` is called without a
scope: `types.Scope.makeScope(-1, 0)`. -/
def defaultScope : JsVal := Scope.makeScope (JsVal.num (-1)) (JsVal.num 0)

/-- `Delve.prototype.findLocationsForArgs` (src/unnamed/part_003
lines 215 to 223):

    let Scope = _scope || types.Scope.makeScope(-1, 0);
    return this._makeCall('FindLocation', {Scope, Loc: locationArgs}, false)
    .catch(RPCError.ServerError,
      err => { throw new DelveError.MalformedLocationError(locationArgs, err); });
-/
def Delve.findLocationsForArgs (server : RpcServer) (locationArgs scopeArg : JsVal) :
    JsM JsVal :=
  let scope := jsOr scopeArg defaultScope
  JsM.catchIf
    (Delve.makeCall server "FindLocation"
      (JsVal.obj [("Scope", scope), ("Loc", locationArgs)]) (JsVal.bool false))
    "ServerError"
    (fun err => JsM.throw (mkMalformedLocationError locationArgs err))

/-- The request body of the `CreateBreakpoint` call issued for one resolved
location: `{ name, addr: location.pc, 'continue': cont }`. -/
def createBpArgs (nameV cont location : JsVal) : JsVal :=
  JsVal.obj [("name", nameV), ("addr", location.getProp "pc"), ("continue", cont)]

/-- The arrow function passed to bluebird `.map` inside
`Delve.prototype.createBreakpoints` (src/unnamed/part_003 lines 238 to 242):
one `CreateBreakpoint` call per resolved location, whose result is decoded
through `types.Breakpoint.decodeBreakpoint`. -/
def Delve.createBreakpointForLocation (server : RpcServer) (nameV cont : JsVal)
    (location : JsVal) : JsM JsVal :=
  if location.objLike then
    JsM.bind
      (Delve.makeCall server "CreateBreakpoint" (createBpArgs nameV cont location)
        JsVal.undefined)
      (fun createdBp =>
        match decodeBreakpoint createdBp with
        | .ok b => JsM.pure b
        | .error e => JsM.throw e)
  else
    -- `location.pc` throws when the location is null or undefined
    JsM.throw (mkTypeError "cannot read properties of a missing location")

/-- Bluebird `.map` over the elements of a resolved array: each element runs
the mapper, and the results are collected in array order. -/
def jsMapM (f : JsVal → JsM JsVal) : List JsVal → JsM (List JsVal)
  | [] => JsM.pure []
  | x :: xs =>
    JsM.bind (f x) (fun y => JsM.bind (jsMapM f xs) (fun ys => JsM.pure (y :: ys)))

/-- `Delve.prototype.createBreakpoints` (src/unnamed/part_003
lines 234 to 243): resolves the location pattern (with no explicit scope),
then maps each resolved location to a `CreateBreakpoint` call whose result
is decoded into a Breakpoint.  Bluebird `.map` rejects with a TypeError when
the resolved value is not an array. -/
def Delve.createBreakpoints (server : RpcServer) (nameV locationStr contArg : JsVal) :
    JsM JsVal :=
  let cont := jsOr contArg (JsVal.bool false)
  JsM.bind (Delve.findLocationsForArgs server locationStr JsVal.undefined)
    (fun locs =>
      match locs with
      | JsVal.arr xs =>
        JsM.bind (jsMapM (Delve.createBreakpointForLocation server nameV cont) xs)
          (fun bps => JsM.pure (JsVal.arr bps))
      | _ => JsM.throw (mkTypeError "expecting an array of locations"))

/-- `Delve.prototype.getBreakpointById` (src/unnamed/part_003
lines 400 to 405):

    return this._makeCall('GetBreakpoint', id)
    .then(bp => types.Breakpoint.decodeBreakpoint(bp), false)
    .catch(() => null);

The second argument of `.then` is the non-function `false` and is ignored
per the promise specification; the trailing unfiltered `.catch` converts
every rejection — server faults of any kind as well as decode failures —
into a fulfilled `null`. -/
def Delve.getBreakpointById (server : RpcServer) (id : JsVal) : JsM JsVal :=
  JsM.catchAll
    (JsM.bind (Delve.makeCall server "GetBreakpoint" id JsVal.undefined)
      (fun bp =>
        match decodeBreakpoint bp with
        | .ok b => JsM.pure b
        | .error e => JsM.throw e))
    (fun _err => JsM.pure JsVal.null)

/-- `Delve.prototype.getBreakpointByName` (src/unnamed/part_003
lines 413 to 418), identical in shape to `getBreakpointById`. -/
def Delve.getBreakpointByName (server : RpcServer) (nameV : JsVal) : JsM JsVal :=
  JsM.catchAll
    (JsM.bind (Delve.makeCall server "GetBreakpointByName" nameV JsVal.undefined)
      (fun bp =>
        match decodeBreakpoint bp with
        | .ok b => JsM.pure b
        | .error e => JsM.throw e))
    (fun _err => JsM.pure JsVal.null)

/-- `Delve.prototype.setSymbol` (src/unnamed/part_003 lines 278 to 282):

    let Scope = types.Scope.makeScope(goroutineId, frameId);
    return this._makeCall('SetSymbol', {Scope, 'Symbol': symbol, Value: value});

The request literal reads the identifier `value`, but the function binds
its parameters as `symbol`, `val`, `goroutineId`, `frameId` (plus the local
`Scope`), so evaluating the literal throws a ReferenceError before
`_makeCall` ever runs. -/
def Delve.setSymbol (server : RpcServer) (symbol val goroutineId frameId : JsVal) :
    JsM JsVal :=
  let scope := Scope.makeScope goroutineId frameId
  let env : List (String × JsVal) :=
    [("symbol", symbol), ("val", val), ("goroutineId", goroutineId),
     ("frameId", frameId), ("Scope", scope)]
  match lookupVar env "value" with
  | .error e => JsM.throw e
  | .ok v =>
    Delve.makeCall server "SetSymbol"
      (JsVal.obj [("Scope", scope), ("Symbol", symbol), ("Value", v)]) JsVal.undefined

/-! Concrete payloads and mock servers used to evaluate the claims on
explicit inputs. -/

/-- A breakpoint payload whose required `id` field is absent. -/
def bpPayloadNoId : JsVal :=
  JsVal.obj [("name", JsVal.str "bp"), ("addr", JsVal.num 4096),
             ("file", JsVal.str "main.go"), ("line", JsVal.num 10)]

/-- A breakpoint payload whose required `name` field is absent. -/
def bpPayloadNoName : JsVal :=
  JsVal.obj [("id", JsVal.num 1), ("addr", JsVal.num 4096),
             ("file", JsVal.str "main.go"), ("line", JsVal.num 10)]

/-- A valid breakpoint payload with every required scalar present and all of
the optional fields `functionName`, `variables`, `hitCount`, `totalHitCount`
absent. -/
def bpPayloadOptionalAbsent : List (String × JsVal) :=
  [("id", JsVal.num 7), ("name", JsVal.str "bp7"), ("addr", JsVal.num 4096),
   ("file", JsVal.str "main.go"), ("line", JsVal.num 12),
   ("continue", JsVal.bool false), ("goroutine", JsVal.bool false),
   ("stacktrace", JsVal.num 0)]

/-- A server fault (an `RPCError.ServerError` rejection of the transport). -/
def someFault : JsVal := mkRpcServerError (JsVal.str "process exited")

/-- A mock server that reports a fault for every request. -/
def faultingServer : RpcServer := fun _method _args => .error someFault

/-- A debugger state with the exited flag set and exit status 0. -/
def exitedState : JsVal :=
  JsVal.obj [("exited", JsVal.bool true), ("exitStatus", JsVal.num 0)]

/-- A mock server whose every response is `exitedState`. -/
def exitedStateServer : RpcServer := fun _method _args => .ok exitedState

/-- The fault a mock server reports for the pattern `bad::pattern`. -/
def badPatternFault : JsVal := mkRpcServerError (JsVal.str "location not found")

/-- A mock server that rejects every location pattern. -/
def badPatternServer : RpcServer := fun _method _args => .error badPatternFault

/-- A generic server fault that is not a not-found report. -/
def internalFault : JsVal := mkRpcServerError (JsVal.str "internal error")

/-- A mock server that reports the generic `internalFault` for every
request. -/
def internalFaultServer : RpcServer := fun _method _args => .error internalFault

/-- The one location a mock server resolves for `main.go:10`. -/
def oneLoc : JsVal := JsVal.obj [("pc", JsVal.num 4198670)]

/-- The breakpoint payload a mock server returns for the one accepted
creation, echoing the requested name. -/
def oneCreated : JsVal :=
  JsVal.obj [("id", JsVal.num 1), ("name", JsVal.str "bp1"),
             ("addr", JsVal.num 4198670), ("file", JsVal.str "main.go"),
             ("line", JsVal.num 10)]

/-- A mock server that resolves one location for any pattern and accepts one
breakpoint creation. -/
def oneLocServer : RpcServer := fun method _args =>
  if method = "RPCServer.FindLocation" then .ok (JsVal.arr [oneLoc])
  else if method = "RPCServer.CreateBreakpoint" then .ok oneCreated
  else .error (mkRpcServerError JsVal.undefined)

/-! Helper lemmas about the embedding, shared by the claim theorems. -/

/-- The call primitive settles exactly as the server settles the prefixed
request, and records exactly that one request — the wrapping branch inside
it has no effect on either component. -/
theorem makeCall_eq (server : RpcServer) (method : String) (args wrapArg : JsVal)
    (log : CallLog) :
    Delve.makeCall server method args wrapArg log
      = (server (methodNamespace ++ "." ++ method) args,
         log ++ [⟨methodNamespace ++ "." ++ method, args⟩]) := rfl

/-- A filtered catch whose handler merely rethrows a translated value leaves
the call log exactly as the guarded computation left it. -/
theorem catchIf_throw_snd (m : JsM JsVal) (cls : String) (f : JsVal → JsVal)
    (log : CallLog) :
    (JsM.catchIf m cls (fun e => JsM.throw (f e)) log).snd = (m log).snd := by
  unfold JsM.catchIf JsM.throw
  rcases h : m log with ⟨res, log2⟩
  cases res with
  | ok a => rfl
  | error e => by_cases hc : e.isInstanceOf cls = true <;> simp [hc]

/-- The log of requests issued by `findLocationsForArgs`: exactly one
`FindLocation` request, whose scope is the supplied one when truthy and the
default scope otherwise. -/
theorem findLocations_log (server : RpcServer) (pattern scopeArg : JsVal)
    (log : CallLog) :
    (Delve.findLocationsForArgs server pattern scopeArg log).snd
      = log ++ [⟨methodNamespace ++ "." ++ "FindLocation",
          JsVal.obj [("Scope", jsOr scopeArg defaultScope), ("Loc", pattern)]⟩] := by
  have h := catchIf_throw_snd
    (Delve.makeCall server "FindLocation"
      (JsVal.obj [("Scope", jsOr scopeArg defaultScope), ("Loc", pattern)])
      (JsVal.bool false))
    "ServerError" (fun err => mkMalformedLocationError pattern err) log
  simp only [Delve.findLocationsForArgs] at h ⊢
  rw [h, makeCall_eq]

/-- When the server fulfills a request, `findLocationsForArgs` resolves with
exactly the fulfilled value. -/
theorem findLocations_ok (server : RpcServer) (pattern scopeArg v : JsVal)
    (log : CallLog)
    (hsrv : server (methodNamespace ++ "." ++ "FindLocation")
        (JsVal.obj [("Scope", jsOr scopeArg defaultScope), ("Loc", pattern)]) = .ok v) :
    Delve.findLocationsForArgs server pattern scopeArg log
      = (.ok v, log ++ [⟨methodNamespace ++ "." ++ "FindLocation",
          JsVal.obj [("Scope", jsOr scopeArg defaultScope), ("Loc", pattern)]⟩]) := by
  simp only [Delve.findLocationsForArgs, JsM.catchIf, makeCall_eq, hsrv]

/-- When the server faults a `FindLocation` request with a `ServerError`,
`findLocationsForArgs` rejects with a `MalformedLocationError` built from
the pattern and that fault. -/
theorem findLocations_fault (server : RpcServer) (pattern scopeArg fault : JsVal)
    (log : CallLog)
    (hsrv : server (methodNamespace ++ "." ++ "FindLocation")
        (JsVal.obj [("Scope", jsOr scopeArg defaultScope), ("Loc", pattern)]) = .error fault)
    (hcls : fault.isInstanceOf "ServerError" = true) :
    (Delve.findLocationsForArgs server pattern scopeArg log).fst
      = .error (mkMalformedLocationError pattern fault) := by
  simp only [Delve.findLocationsForArgs, JsM.catchIf, makeCall_eq, hsrv]
  simp [hcls, JsM.throw]

/-- One run of the per-location breakpoint creation when the server accepts
it: a single `CreateBreakpoint` request and the decoded response. -/
theorem createBreakpointForLocation_eq (server : RpcServer) (nameV cont : JsVal)
    (location resp : JsVal) (log : CallLog)
    (hloc : location.objLike = true)
    (hsrv : server (methodNamespace ++ "." ++ "CreateBreakpoint")
        (createBpArgs nameV cont location) = .ok resp)
    (hresp : resp.objLike = true) :
    Delve.createBreakpointForLocation server nameV cont location log
      = (.ok (decodeBreakpointFields resp),
         log ++ [⟨methodNamespace ++ "." ++ "CreateBreakpoint",
                  createBpArgs nameV cont location⟩]) := by
  simp only [Delve.createBreakpointForLocation, hloc, if_true, JsM.bind, makeCall_eq,
    hsrv, decodeBreakpoint, hresp, JsM.pure]

/-- Bluebird `.map` with a mapper that performs exactly one request per
element and fulfills: the results in array order, the requests in array
order. -/
theorem jsMapM_ok (f : JsVal → JsM JsVal) (g : JsVal → JsVal) (c : JsVal → RpcCall)
    (xs : List JsVal)
    (h : ∀ x ∈ xs, ∀ log, f x log = (.ok (g x), log ++ [c x])) (log : CallLog) :
    jsMapM f xs log = (.ok (xs.map g), log ++ xs.map c) := by
  induction xs generalizing log with
  | nil => simp [jsMapM, JsM.pure]
  | cons x xs ih =>
    have hx := h x (List.mem_cons_self x xs) log
    have hrest := ih (fun y hy l => h y (List.mem_cons_of_mem _ hy) l)
    simp [jsMapM, JsM.bind, hx, hrest, JsM.pure]

/-! The claims. -/

/-- C1: the specification requires decoding to raise a MalformedBreakpointError
when the required scalar field `id` or `name` is absent or malformed; the code
does not do this.  Decoding a payload missing `id` (respectively `name`)
succeeds and returns a Breakpoint whose `id` (respectively `name`) is
`undefined` — the decoder fabricates the missing value instead of raising. -/
theorem c1_decode_missing_required_field_does_not_raise :
    (decodeBreakpoint bpPayloadNoId).toOption.map (fun v => v.getProp "id")
      = some JsVal.undefined ∧
    (decodeBreakpoint bpPayloadNoName).toOption.map (fun v => v.getProp "name")
      = some JsVal.undefined ∧
    (∀ e, decodeBreakpoint bpPayloadNoId ≠ .error e) ∧
    (∀ e, decodeBreakpoint bpPayloadNoName ≠ .error e) :=
  ⟨rfl, rfl, fun _ h => Except.noConfusion h, fun _ h => Except.noConfusion h⟩

/-- C2 counterexample: decoding a valid payload with the optional fields
absent yields a `hitCount` equal to the empty array `[]`, which is not the
empty mapping `{}` the claim states. -/
theorem c2_hitcount_defaults_to_empty_array :
    (decodeBreakpoint (JsVal.obj bpPayloadOptionalAbsent)).toOption.map
        (fun v => v.getProp "hitCount") = some (JsVal.arr []) ∧
    JsVal.arr [] ≠ JsVal.obj [] :=
  ⟨rfl, fun h => JsVal.noConfusion h⟩

/-- C2 (amended): for every valid breakpoint payload in which the optional
fields `functionName`, `variables`, `hitCount`, `totalHitCount` are absent,
decoding returns a Breakpoint whose `functionName` is null, whose `variables`
is the empty list, whose `hitCount` is the empty array `[]` (not an empty
mapping), and whose `totalHitCount` is 0. -/
theorem c2_optional_field_defaults (props : List (String × JsVal))
    (hfn : lookupProp props "functionName" = none)
    (hvars : lookupProp props "variables" = none)
    (hhc : lookupProp props "hitCount" = none)
    (hthc : lookupProp props "totalHitCount" = none) :
    decodeBreakpoint (JsVal.obj props)
      = .ok (decodeBreakpointFields (JsVal.obj props)) ∧
    (decodeBreakpointFields (JsVal.obj props)).getProp "hitCount" = JsVal.arr [] ∧
    (decodeBreakpointFields (JsVal.obj props)).getProp "variables" = JsVal.arr [] ∧
    (decodeBreakpointFields (JsVal.obj props)).getProp "totalHitCount"
      = JsVal.num 0 ∧
    ((decodeBreakpointFields (JsVal.obj props)).getProp "location").getProp
        "functionName" = JsVal.null := by
  refine ⟨rfl, ?_, ?_, ?_, ?_⟩ <;>
    simp [decodeBreakpointFields, JsVal.getProp, lookupProp, hfn, hvars, hhc, hthc,
      jsOr, JsVal.truthy]

/-- Witness for c2_optional_field_defaults at the concrete payload
`bpPayloadOptionalAbsent`. -/
theorem c2_optional_field_defaults_witness :
    lookupProp bpPayloadOptionalAbsent "hitCount" = none ∧
    (decodeBreakpointFields (JsVal.obj bpPayloadOptionalAbsent)).getProp "hitCount"
      = JsVal.arr [] ∧
    ((decodeBreakpointFields (JsVal.obj bpPayloadOptionalAbsent)).getProp
        "location").getProp "functionName" = JsVal.null :=
  ⟨rfl, (c2_optional_field_defaults bpPayloadOptionalAbsent rfl rfl rfl rfl).2.1,
   (c2_optional_field_defaults bpPayloadOptionalAbsent rfl rfl rfl rfl).2.2.2.2⟩

/-- C3: the specification says `_makeCall` rejects with a DelveServerError
wrapping a server fault unless the caller opts out; in the code the promise
returned is the raw `callAsync` promise for every method, argument and flag
value — the wrapping catch is built but its result is discarded — so the
fault surfaces unwrapped even when wrapping was requested. -/
theorem c3_makeCall_always_returns_raw_outcome :
    (∀ (server : RpcServer) (method : String) (args wrapArg : JsVal) (log : CallLog),
        (Delve.makeCall server method args wrapArg log).fst
          = server (methodNamespace ++ "." ++ method) args) ∧
    (Delve.makeCall faultingServer "Command"
        (JsVal.obj [("name", JsVal.str "continue")]) JsVal.undefined []).fst
      = .error someFault ∧
    someFault.isInstanceOf "ServerError" = true ∧
    someFault.isInstanceOf "DelveServerError" = false ∧
    (Delve.makeCall faultingServer "Command"
        (JsVal.obj [("name", JsVal.str "continue")]) JsVal.undefined []).fst
      ≠ .error (mkDelveServerError someFault) := by
  refine ⟨fun _ _ _ _ _ => rfl, rfl, rfl, rfl, ?_⟩
  intro h
  simp [Delve.makeCall, callAsync, faultingServer, someFault, mkRpcServerError,
    mkDelveServerError] at h

/-- C4: the specification says continueExecution raises a DebuggerExited
error carrying the state and its exit status when the server reports an
exited state; in the code the rejection is instead a TypeError, because the
errors module exports no DebuggerExited class at all, so
`new DelveError.DebuggerExited(state)` is a construction on undefined. -/
theorem c4_continue_exited_rejects_with_type_error :
    (Delve.continueToNextBreakpoint exitedStateServer []).fst
      = .error (mkTypeError "DelveError.DebuggerExited is not a constructor") ∧
    "DebuggerExited" ∉ errorModuleExports ∧
    exitedState.getProp "exitStatus" = JsVal.num 0 :=
  ⟨rfl, by decide, rfl⟩

/-- C5 counterexample: for the pattern bad::pattern rejected by the server,
findLocationsForArgs rejects with a MalformedLocationError, but that error
carries no locationArg property at all — the property reads as undefined,
not as the pattern string the claim requires. -/
theorem c5_no_location_arg_property :
    (Delve.findLocationsForArgs badPatternServer (JsVal.str "bad::pattern")
        JsVal.undefined []).fst
      = .error (mkMalformedLocationError (JsVal.str "bad::pattern") badPatternFault) ∧
    (mkMalformedLocationError (JsVal.str "bad::pattern") badPatternFault).getProp
        "locationArg" = JsVal.undefined ∧
    JsVal.undefined ≠ JsVal.str "bad::pattern" :=
  ⟨rfl, rfl, fun h => JsVal.noConfusion h⟩

/-- C5 (amended): for every pattern the server rejects with a ServerError
fault, findLocationsForArgs rejects with a MalformedLocationError whose
error property is the underlying fault and whose message embeds the original
pattern string; the pattern is not exposed as a locationArg property. -/
theorem c5_malformed_location_error_contents (server : RpcServer) (pattern : String)
    (fault : JsVal)
    (hsrv : server (methodNamespace ++ "." ++ "FindLocation")
        (JsVal.obj [("Scope", defaultScope), ("Loc", JsVal.str pattern)])
      = .error fault)
    (hcls : fault.isInstanceOf "ServerError" = true) :
    (Delve.findLocationsForArgs server (JsVal.str pattern) JsVal.undefined []).fst
      = .error (mkMalformedLocationError (JsVal.str pattern) fault) ∧
    (mkMalformedLocationError (JsVal.str pattern) fault).getProp "error" = fault ∧
    (mkMalformedLocationError (JsVal.str pattern) fault).getProp "message"
      = JsVal.str ("Invalid location pattern: " ++ pattern) ∧
    (mkMalformedLocationError (JsVal.str pattern) fault).getProp "locationArg"
      = JsVal.undefined := by
  refine ⟨?_, rfl, rfl, rfl⟩
  exact findLocations_fault server (JsVal.str pattern) JsVal.undefined fault [] hsrv hcls

/-- Witness for c5_malformed_location_error_contents at the pattern
bad::pattern against the rejecting mock server. -/
theorem c5_malformed_location_error_contents_witness :
    badPatternFault.isInstanceOf "ServerError" = true ∧
    (mkMalformedLocationError (JsVal.str "bad::pattern") badPatternFault).getProp
        "error" = badPatternFault ∧
    (mkMalformedLocationError (JsVal.str "bad::pattern") badPatternFault).getProp
        "message" = JsVal.str "Invalid location pattern: bad::pattern" :=
  ⟨rfl, (c5_malformed_location_error_contents badPatternServer "bad::pattern"
      badPatternFault rfl rfl).2.1,
   (c5_malformed_location_error_contents badPatternServer "bad::pattern"
      badPatternFault rfl rfl).2.2.1⟩

/-- C6 counterexample: against a server reporting a generic internal fault
(not a not-found report) for GetBreakpoint, getBreakpointById resolves to
null instead of rejecting with a ServerError as the claim requires. -/
theorem c6_generic_fault_yields_null :
    (Delve.getBreakpointById internalFaultServer (JsVal.num 999) []).fst
      = .ok JsVal.null ∧
    internalFault.isInstanceOf "ServerError" = true ∧
    (∀ e, (Delve.getBreakpointById internalFaultServer (JsVal.num 999) []).fst
      ≠ .error e) :=
  ⟨rfl, rfl, fun _ h => Except.noConfusion h⟩

/-- C6 (amended): getBreakpointById and getBreakpointByName resolve to the
null sentinel on every failure — a server fault of any kind, not-found or
otherwise, as well as a decode failure — rather than rejecting; no server
fault surfaces as a ServerError from these two methods. -/
theorem c6_breakpoint_lookup_null_on_any_failure (server : RpcServer)
    (id nameV faultA faultB : JsVal)
    (hid : server (methodNamespace ++ "." ++ "GetBreakpoint") id = .error faultA)
    (hname : server (methodNamespace ++ "." ++ "GetBreakpointByName") nameV
      = .error faultB) :
    (Delve.getBreakpointById server id []).fst = .ok JsVal.null ∧
    (Delve.getBreakpointByName server nameV []).fst = .ok JsVal.null := by
  constructor <;>
    simp [Delve.getBreakpointById, Delve.getBreakpointByName, JsM.catchAll,
      JsM.bind, makeCall_eq, hid, hname, JsM.pure, JsM.throw]

/-- Witness for c6_breakpoint_lookup_null_on_any_failure against the mock
server reporting a generic internal fault for every request. -/
theorem c6_breakpoint_lookup_null_on_any_failure_witness :
    internalFaultServer (methodNamespace ++ "." ++ "GetBreakpoint") (JsVal.num 999)
      = .error internalFault ∧
    (Delve.getBreakpointByName internalFaultServer (JsVal.str "nope") []).fst
      = .ok JsVal.null :=
  ⟨rfl, (c6_breakpoint_lookup_null_on_any_failure internalFaultServer (JsVal.num 999)
      (JsVal.str "nope") internalFault internalFault rfl rfl).2⟩

/-- C7: createBreakpoints resolves the pattern through findLocationsForArgs
(one FindLocation request with the default scope), then issues exactly one
CreateBreakpoint request per resolved location — carrying the given name,
that location's address and the tracepoint flag defaulted to false — decodes
each response, and resolves with the decoded breakpoints in resolution
order. -/
theorem c7_create_one_call_per_location (server : RpcServer) (nameV pattern : JsVal)
    (locs : List JsVal) (resp : JsVal → JsVal)
    (hfind : server (methodNamespace ++ "." ++ "FindLocation")
        (JsVal.obj [("Scope", defaultScope), ("Loc", pattern)]) = .ok (JsVal.arr locs))
    (hloc : ∀ loc ∈ locs, loc.objLike = true)
    (hcreate : ∀ loc ∈ locs,
        server (methodNamespace ++ "." ++ "CreateBreakpoint")
          (createBpArgs nameV (JsVal.bool false) loc) = .ok (resp loc))
    (hresp : ∀ loc ∈ locs, (resp loc).objLike = true) :
    Delve.createBreakpoints server nameV pattern JsVal.undefined []
      = (.ok (JsVal.arr (locs.map fun loc => decodeBreakpointFields (resp loc))),
         ⟨methodNamespace ++ "." ++ "FindLocation",
          JsVal.obj [("Scope", defaultScope), ("Loc", pattern)]⟩ ::
         locs.map (fun loc => ⟨methodNamespace ++ "." ++ "CreateBreakpoint",
            createBpArgs nameV (JsVal.bool false) loc⟩)) := by
  have hfl := findLocations_ok server pattern JsVal.undefined (JsVal.arr locs) [] hfind
  have hmap := jsMapM_ok
    (Delve.createBreakpointForLocation server nameV (JsVal.bool false))
    (fun loc => decodeBreakpointFields (resp loc))
    (fun loc => ⟨methodNamespace ++ "." ++ "CreateBreakpoint",
        createBpArgs nameV (JsVal.bool false) loc⟩) locs
    (fun loc hl log => createBreakpointForLocation_eq server nameV (JsVal.bool false)
        loc (resp loc) log (hloc loc hl) (hcreate loc hl) (hresp loc hl))
    [⟨methodNamespace ++ "." ++ "FindLocation",
      JsVal.obj [("Scope", jsOr JsVal.undefined defaultScope), ("Loc", pattern)]⟩]
  have hcont : jsOr JsVal.undefined (JsVal.bool false) = JsVal.bool false := rfl
  have hscope : jsOr JsVal.undefined defaultScope = defaultScope := rfl
  rw [hscope] at hfl hmap
  rw [List.nil_append] at hfl
  simp only [Delve.createBreakpoints, JsM.bind, hcont, hscope, hfl, hmap, JsM.pure]
  simp

/-- Witness for c7_create_one_call_per_location: against a mock server that
resolves one location for main.go:10 and accepts one creation echoing the
requested name, createBreakpoints resolves with a one-element sequence whose
breakpoint carries the name bp1. -/
theorem c7_create_one_call_per_location_witness :
    oneLoc.objLike = true ∧
    Delve.createBreakpoints oneLocServer (JsVal.str "bp1") (JsVal.str "main.go:10")
        JsVal.undefined []
      = (.ok (JsVal.arr [decodeBreakpointFields oneCreated]),
         [⟨methodNamespace ++ "." ++ "FindLocation",
           JsVal.obj [("Scope", defaultScope), ("Loc", JsVal.str "main.go:10")]⟩,
          ⟨methodNamespace ++ "." ++ "CreateBreakpoint",
           createBpArgs (JsVal.str "bp1") (JsVal.bool false) oneLoc⟩]) ∧
    (decodeBreakpointFields oneCreated).getProp "name" = JsVal.str "bp1" := by
  have h := c7_create_one_call_per_location oneLocServer (JsVal.str "bp1")
    (JsVal.str "main.go:10") [oneLoc] (fun _ => oneCreated) rfl
    (by intro loc hl; rw [List.mem_singleton] at hl; subst hl; rfl)
    (by intro loc hl; rw [List.mem_singleton] at hl; subst hl; rfl)
    (by intro loc hl; rw [List.mem_singleton] at hl; subst hl; rfl)
  exact ⟨rfl, by simpa using h, rfl⟩

/-- C8: a findLocationsForArgs call without an explicit scope issues its
FindLocation request with the default scope — goroutine id -1, frame index
0 — while a call with a supplied scope object issues the request with that
scope unchanged. -/
theorem c8_find_locations_scope_defaulting (server : RpcServer) (pattern : JsVal)
    (props : List (String × JsVal)) (log : CallLog) :
    (Delve.findLocationsForArgs server pattern JsVal.undefined log).snd
      = log ++ [⟨methodNamespace ++ "." ++ "FindLocation",
          JsVal.obj [("Scope", Scope.makeScope (JsVal.num (-1)) (JsVal.num 0)),
                     ("Loc", pattern)]⟩] ∧
    (Delve.findLocationsForArgs server pattern (JsVal.obj props) log).snd
      = log ++ [⟨methodNamespace ++ "." ++ "FindLocation",
          JsVal.obj [("Scope", JsVal.obj props), ("Loc", pattern)]⟩] := by
  constructor
  · simpa [jsOr, JsVal.truthy, defaultScope] using
      findLocations_log server pattern JsVal.undefined log
  · simpa [jsOr, JsVal.truthy] using
      findLocations_log server pattern (JsVal.obj props) log

/-- C9: when every Command response from the server is a state whose exited
flag is set, the operations next, step, stepInstruction and halt all resolve
with that state unchanged — none of them raises anything — while the
continue operation alone inspects the flag and rejects; the asymmetry is
preserved. -/
theorem c9_step_family_passes_exited_state_through (server : RpcServer)
    (log : CallLog) (state : JsVal)
    (hresp : ∀ args, server (methodNamespace ++ "." ++ "Command") args = .ok state)
    (hexited : (state.getProp "exited").truthy = true) :
    (Delve.next server log).fst = .ok state ∧
    (Delve.step server log).fst = .ok state ∧
    (Delve.stepInstruction server log).fst = .ok state ∧
    (Delve.halt server log).fst = .ok state ∧
    ∃ e, (Delve.continueToNextBreakpoint server log).fst = .error e := by
  have hobj : state.objLike = true := by
    cases state <;> simp_all [JsVal.getProp, JsVal.objLike, JsVal.truthy]
  refine ⟨?_, ?_, ?_, ?_,
    ⟨mkTypeError "DelveError.DebuggerExited is not a constructor", ?_⟩⟩
  · simp [Delve.next, makeCall_eq, hresp]
  · simp [Delve.step, makeCall_eq, hresp]
  · simp [Delve.stepInstruction, makeCall_eq, hresp]
  · simp [Delve.halt, makeCall_eq, hresp]
  · simp [Delve.continueToNextBreakpoint, JsM.bind, makeCall_eq, hresp, hobj,
      hexited, newDelveErrorClass, JsM.throw]

/-- Witness for c9_step_family_passes_exited_state_through against the mock
server whose every response is the exited state. -/
theorem c9_step_family_passes_exited_state_through_witness :
    (exitedState.getProp "exited").truthy = true ∧
    (Delve.step exitedStateServer []).fst = .ok exitedState ∧
    ∃ e, (Delve.continueToNextBreakpoint exitedStateServer []).fst = .error e := by
  have h := c9_step_family_passes_exited_state_through exitedStateServer [] exitedState
    (fun _ => rfl) rfl
  exact ⟨rfl, h.2.1, h.2.2.2.2⟩

/-- C10: for every combination of symbol, value, goroutine id and frame
index, setSymbol never issues its RPC request and never resolves: the
request literal reads the unbound identifier `value` (the parameter is named
`val`), so every invocation rejects with a ReferenceError — a plain built-in
error, not one of the typed library errors — and the call log is left
unchanged, showing that no request was made. -/
theorem c10_set_symbol_rejects_before_any_call :
    (∀ (server : RpcServer) (symbol val goroutineId frameId : JsVal) (log : CallLog),
        Delve.setSymbol server symbol val goroutineId frameId log
          = (.error (mkReferenceError "value"), log)) ∧
    (mkReferenceError "value").isInstanceOf "ReferenceError" = true ∧
    (mkReferenceError "value").isInstanceOf "BaseError" = false :=
  ⟨fun _ _ _ _ _ _ => rfl, rfl, rfl⟩
